import Mathlib

/-!
Shallow embedding of `lib/util/sigquit.c` (the SIGQUIT / ^Q terminal-state
controller of tarsnap) together with the overflow-checked allocator
`imalloc` from `lib/util/imalloc.h`.

External calls (sigaction, ttyfd, tcgetattr, atexit, signal, tcsetattr,
close) are modelled by an environment that fixes the outcome of each call,
and the process state (the live terminal attributes, the saved snapshot,
the SIGQUIT flag, the SIGTTOU disposition, the registered exit hooks) is
threaded explicitly.  Each run also produces a trace of events, so that
ordering claims (registration before mutation, close performed by the exit
step) can be stated about executions.
-/

namespace Sigquit

/-- Number of entries of the `c_cc` control-character table (`NCCS`);
32 on the reference platform. -/
def NCCS : Nat := 32

/-- Index of the `VQUIT` control-character entry. -/
def VQUIT : Fin NCCS := ⟨1, by decide⟩

/-- Value meaning "this control character is disabled" (`_POSIX_VDISABLE`);
0 on the reference platform. -/
def POSIX_VDISABLE : Nat := 0

/-- Byte value of the ^Q keystroke: `'q' & 0x1f = 0x11`. -/
def ctrlQ : Nat := 0x11

/-- Model of `struct termios`: the mode flag words, the speeds and the
control-character table. -/
structure Termios where
  c_iflag : Nat
  c_oflag : Nat
  c_cflag : Nat
  c_lflag : Nat
  c_ispeed : Nat
  c_ospeed : Nat
  c_cc : Fin NCCS → Nat

/-- Embedding of the loop
`for (i = 0; i < NCCS; i++) if (tc_new.c_cc[i] == ('q' & 0x1f)) tc_new.c_cc[i] = _POSIX_VDISABLE;`
of `sigquit_init`.  Each iteration reads and writes only entry `i`, so the
sequential loop acts pointwise on the table. -/
def cc_clear_ctrlQ (cc : Fin NCCS → Nat) : Fin NCCS → Nat :=
  fun i => if cc i = ctrlQ then POSIX_VDISABLE else cc i

/-- Embedding of the adjustment performed by `sigquit_init` on the copy
`tc_new` of the snapshot: clear every existing ^Q binding, then
`tc_new.c_cc[VQUIT] = 'q' & 0x1f;`. -/
def tc_adjust (tc : Termios) : Termios :=
  { tc with c_cc := Function.update (cc_clear_ctrlQ tc.c_cc) VQUIT ctrlQ }

/-- Error codes that the embedded code inspects; `enxio` and `eio` stand
for the C constants ENXIO and EIO.  `eio` and `EPERM` stand
for arbitrary codes outside the benign set. -/
inductive Errno where
  | ENOTTY | enxio | EBADF | EINVAL | ENODEV | eio | EPERM
  deriving DecidableEq, Repr

/-- Check of `sigquit_init` classifying a `tcgetattr` errno as a benign
"not really a terminal" code:
`(errno == ENOTTY) || (errno == ENXIO) || (errno == EBADF) || (errno == EINVAL) || (errno == ENODEV)`. -/
def benign : Errno → Bool
  | .ENOTTY => true
  | .enxio => true
  | .EBADF => true
  | .EINVAL => true
  | .ENODEV => true
  | _ => false

/-- Disposition of a signal, as manipulated through `signal(2)`. -/
inductive Disposition where
  | dfl | ign | handler
  deriving DecidableEq, Repr

/-- Exit hooks that can be registered with `atexit(3)` by this code. -/
inductive ExitHook where
  | termiosRestoreHook
  deriving DecidableEq, Repr

/-- Process state visible to the subsystem: the SIGQUIT flag, whether the
SIGQUIT handler is installed, the SIGTTOU disposition, the live terminal
attributes, the globals `tc_saved` and `fd_terminal`, and the list of
exit hooks registered with `atexit` (most recent first). -/
structure World where
  sigquit_received : Nat
  quitHandler : Bool
  ttou : Disposition
  term : Termios
  tc_saved : Termios
  fd_terminal : Int
  exitHooks : List ExitHook

/-- Events recorded by a run, used to state ordering and resource claims
about executions. -/
inductive Event where
  | sigactionEv (ok : Bool)
  | ttyfdEv (r : Option Nat)
  | tcgetattrEv (fd : Int) (r : Option Errno)
  | atexitEv (ok : Bool)
  | signalTtouEv (ok : Bool)
  | tcsetattrEv (fd : Int) (t : Termios) (r : Option Errno)
  | closeEv (fd : Int)

/-- Outcomes of the external calls made by one invocation of
`tcsetattr_nostop`: whether each of the two `signal(2)` calls succeeds,
and the result of `tcsetattr(3)` (`none` = success, `some e` = failure
with `errno = e`). -/
structure NostopEnv where
  sig1_ok : Bool
  tcsRes : Option Errno
  sig2_ok : Bool

/-- Embedding of `sigquit_handler(sig)`: the handler records that SIGQUIT
has been received (`sigquit_received = 1;`) and does nothing else. -/
def sigquit_handler (w : World) : World :=
  { w with sigquit_received := 1 }

/-- Embedding of `tcsetattr_nostop(fd, action, t)`: set the SIGTTOU
disposition to ignore, call `tcsetattr`, restore the old disposition, and
return the status code from `tcsetattr`; if either `signal` call fails,
return -1.  Returns the status, the new world and the events of the call.
A successful `tcsetattr` replaces the live attributes by `t`; a failed
`signal` call leaves the disposition unchanged. -/
def tcsetattr_nostop (env : NostopEnv) (fd : Int) (t : Termios) (w : World) :
    Int × World × List Event :=
  if env.sig1_ok then
    let oldsig := w.ttou
    let w1 := { w with ttou := .ign }
    let rc : Int := match env.tcsRes with | none => 0 | some _ => -1
    let w2 := match env.tcsRes with | none => { w1 with term := t } | some _ => w1
    let ev := [Event.signalTtouEv true, Event.tcsetattrEv fd t env.tcsRes]
    if env.sig2_ok then
      (rc, { w2 with ttou := oldsig }, ev ++ [Event.signalTtouEv true])
    else
      (-1, w2, ev ++ [Event.signalTtouEv false])
  else
    (-1, w, [Event.signalTtouEv false])

/-- Embedding of `termios_restore(void)`: re-apply the saved `tc_saved`
attributes through `tcsetattr_nostop` (return value discarded) and close
`fd_terminal`. -/
def termios_restore (env : NostopEnv) (w : World) : World × List Event :=
  let r := tcsetattr_nostop env w.fd_terminal w.tc_saved w
  (r.2.1, r.2.2 ++ [Event.closeEv w.fd_terminal])

/-- Running of a list of registered exit hooks in order. -/
def runHookList (env : NostopEnv) : List ExitHook → World → World × List Event
  | [], w => (w, [])
  | ExitHook.termiosRestoreHook :: hs, w =>
    let r := termios_restore env w
    let r2 := runHookList env hs r.1
    (r2.1, r.2 ++ r2.2)

/-- Running of the exit hooks registered with `atexit`, most recent
first, at process exit. -/
def runExitHooks (env : NostopEnv) (w : World) : World × List Event :=
  runHookList env w.exitHooks w

/-- Outcomes of the external calls made by one invocation of
`sigquit_init`: whether `sigaction` succeeds, the descriptor returned by
`ttyfd` (`none` = -1), the result of `tcgetattr` (`none` = success),
whether `atexit` succeeds, and the outcomes inside the `tcsetattr_nostop`
call. -/
structure InitEnv where
  sigaction_ok : Bool
  tty : Option Nat
  tcget : Option Errno
  atexit_ok : Bool
  tcset : NostopEnv

/-- Embedding of `sigquit_init(void)`: zero `sigquit_received`, install
the SIGQUIT handler, resolve the terminal via `ttyfd` (absence is not an
error), snapshot the attributes into `tc_saved` (benign `tcgetattr` errors
are treated as no terminal), register `termios_restore` with `atexit`,
build the adjusted copy `tc_new` and apply it via `tcsetattr_nostop`.
Returns 0 on success and -1 on failure, with the final world and trace. -/
def sigquit_init (env : InitEnv) (w : World) : Int × World × List Event :=
  let w := { w with sigquit_received := 0 }
  if env.sigaction_ok then
    let w := { w with quitHandler := true }
    let tr0 := [Event.sigactionEv true]
    match env.tty with
    | none =>
      (0, { w with fd_terminal := -1 }, tr0 ++ [Event.ttyfdEv none])
    | some fd =>
      let w := { w with fd_terminal := (fd : Int) }
      let tr1 := tr0 ++ [Event.ttyfdEv (some fd)]
      match env.tcget with
      | some e =>
        let tr2 := tr1 ++ [Event.tcgetattrEv (fd : Int) (some e)]
        ((if benign e then 0 else -1 : Int), w, tr2)
      | none =>
        let w := { w with tc_saved := w.term }
        let tr2 := tr1 ++ [Event.tcgetattrEv (fd : Int) none]
        if env.atexit_ok then
          let w := { w with exitHooks := ExitHook.termiosRestoreHook :: w.exitHooks }
          let tr3 := tr2 ++ [Event.atexitEv true]
          let tc_new := tc_adjust w.tc_saved
          let r := tcsetattr_nostop env.tcset (fd : Int) tc_new w
          let tr4 := tr3 ++ r.2.2
          ((if r.1 = 0 then 0 else -1 : Int), r.2.1, tr4)
        else
          (-1, w, tr2 ++ [Event.atexitEv false])
  else
    (-1, w, [Event.sigactionEv false])

/-- Whole-process run for resource claims: `sigquit_init` once, then the
exit hooks at process termination.  Returns the return code of
`sigquit_init`, the final world, the trace of the initialization and the
trace of the exit phase. -/
def runProcess (env : InitEnv) (renv : NostopEnv) (w : World) :
    Int × World × List Event × List Event :=
  let ri := sigquit_init env w
  let re := runExitHooks renv ri.2.1
  (ri.1, re.1, ri.2.2, re.2)

/-- Failure of a `tcsetattr_nostop` call for a given environment: either
`signal` call fails, or `tcsetattr` fails (with any error code). -/
def nostopFails (e : NostopEnv) : Bool :=
  !e.sig1_ok || e.tcsRes.isSome || !e.sig2_ok

/-- Characterization, read off the branch structure of `sigquit_init`, of
the environments for which it returns -1: `sigaction` fails; or a terminal
is resolved and `tcgetattr` fails with a non-benign error; or the snapshot
succeeds and `atexit` fails; or the `tcsetattr_nostop` call fails for any
reason. -/
def initFails (env : InitEnv) : Bool :=
  !env.sigaction_ok ||
    (match env.tty with
     | none => false
     | some _ =>
       match env.tcget with
       | some e => !benign e
       | none => !env.atexit_ok || nostopFails env.tcset)

/-- Failure condition exactly as claim C2 words it: `sigaction` fails; or
`tcgetattr` on a resolved terminal fails with an error code outside the
benign set; or `atexit` fails; or `tcsetattr` fails with an error code
outside the benign set.  This definition follows the claim, not the code;
`sigquit_init_c2_counterexample` separates the two. -/
def initFailsClaimC2 (env : InitEnv) : Bool :=
  !env.sigaction_ok ||
    (match env.tty with
     | none => false
     | some _ =>
       match env.tcget with
       | some e => !benign e
       | none =>
         !env.atexit_ok ||
           (match env.tcset.tcsRes with
            | some e => !benign e
            | none => false))

/-- Discriminator for failed `atexit` events. -/
def isAtexitFail : Event → Bool
  | .atexitEv false => true
  | _ => false

/-- Discriminator for `atexit` events of either outcome. -/
def isAtexit : Event → Bool
  | .atexitEv _ => true
  | _ => false

/-- Discriminator for `tcsetattr` call events. -/
def isTcset : Event → Bool
  | .tcsetattrEv _ _ _ => true
  | _ => false

/-- Discriminator for `tcgetattr` call events. -/
def isTcget : Event → Bool
  | .tcgetattrEv _ _ => true
  | _ => false

/-- Discriminator for `close` events. -/
def isClose : Event → Bool
  | .closeEv _ => true
  | _ => false

/-- Discriminator for a `ttyfd` call reporting that no controlling
terminal exists. -/
def isTtyfdNone : Event → Bool
  | .ttyfdEv none => true
  | _ => false

/-- Scanner stating that no `tcsetattr` call occurs before the successful
`atexit` registration in a trace. -/
def regBeforeMut : List Event → Bool
  | [] => true
  | Event.atexitEv true :: _ => true
  | Event.tcsetattrEv _ _ _ :: _ => false
  | _ :: es => regBeforeMut es

/-- Steps the process can take after initialization: delivery of SIGQUIT
(which runs `sigquit_handler`), a host poll of the flag, or process exit
(which runs the registered hooks).  No operation of the subsystem writes
`sigquit_received` other than the handler. -/
inductive HostStep where
  | deliverQuit
  | pollFlag
  | processExit (renv : NostopEnv)

/-- Effect of one post-initialization step on the world. -/
def hostStep : HostStep → World → World
  | .deliverQuit, w => sigquit_handler w
  | .pollFlag, w => w
  | .processExit renv, w => (runExitHooks renv w).1

/-- Running of a sequence of post-initialization steps. -/
def hostRun : List HostStep → World → World
  | [], w => w
  | s :: l, w => hostRun l (hostStep s w)

/-- Termios value with all fields zero, used for concrete runs. -/
def tc0 : Termios :=
  { c_iflag := 0, c_oflag := 0, c_cflag := 0, c_lflag := 0,
    c_ispeed := 0, c_ospeed := 0, c_cc := fun _ => 0 }

/-- Termios value with a nontrivial control-character table: entry 5 holds
the ^Q byte and every other entry holds its own index. -/
def tcSample : Termios :=
  { c_iflag := 1, c_oflag := 2, c_cflag := 3, c_lflag := 4,
    c_ispeed := 5, c_ospeed := 6,
    c_cc := fun i => if i.val = 5 then ctrlQ else i.val }

/-- Initial world for concrete runs: flag clear, no handler, default
SIGTTOU disposition, zeroed terminal, no registered hooks. -/
def w0 : World :=
  { sigquit_received := 0, quitHandler := false, ttou := .dfl,
    term := tcSample, tc_saved := tc0, fd_terminal := 0, exitHooks := [] }

/-- Environment refuting claim C2: every call succeeds except the inner
`tcsetattr`, which fails with the benign code `ENOTTY`. -/
def envC2 : InitEnv :=
  { sigaction_ok := true, tty := some 3, tcget := none, atexit_ok := true,
    tcset := { sig1_ok := true, tcsRes := some .ENOTTY, sig2_ok := true } }

/-- Environment refuting claim C3: the first `signal` call succeeds, the
inner `tcsetattr` succeeds, and the restoring `signal` call fails. -/
def envC3 : NostopEnv :=
  { sig1_ok := true, tcsRes := none, sig2_ok := false }

/-- Environment refuting claim C8: a terminal descriptor is obtained but
`tcgetattr` fails with the benign code `ENOTTY`, so no restore action is
ever registered and the descriptor is never closed. -/
def envC8 : InitEnv :=
  { sigaction_ok := true, tty := some 3, tcget := some .ENOTTY,
    atexit_ok := true,
    tcset := { sig1_ok := true, tcsRes := none, sig2_ok := true } }

/-- Fully successful environment for an exit-time `tcsetattr_nostop`. -/
def renv0 : NostopEnv :=
  { sig1_ok := true, tcsRes := none, sig2_ok := true }

/-- Environment in which every external call of `sigquit_init` succeeds
on terminal descriptor 3. -/
def envOk : InitEnv :=
  { sigaction_ok := true, tty := some 3, tcget := none, atexit_ok := true,
    tcset := renv0 }

/-- Environment in which everything succeeds up to `atexit`, which
fails. -/
def envC5 : InitEnv :=
  { sigaction_ok := true, tty := some 3, tcget := none, atexit_ok := false,
    tcset := renv0 }

/-- Environment in which `ttyfd` reports that no controlling terminal
exists. -/
def envNoTty : InitEnv :=
  { sigaction_ok := true, tty := none, tcget := none, atexit_ok := true,
    tcset := renv0 }

/-- Environment in which everything succeeds except the live attribute
set, whose inner `tcsetattr` fails with `EIO`. -/
def envC10 : InitEnv :=
  { sigaction_ok := true, tty := some 3, tcget := none, atexit_ok := true,
    tcset := { sig1_ok := true, tcsRes := some .eio, sig2_ok := true } }

/-- Value of `SIZE_MAX` for the 64-bit `size_t` of the reference platform. -/
def SIZE_MAX : Nat := 2 ^ 64 - 1

/-- Outcome of a call to `imalloc`: return NULL without touching the
allocator, return NULL with `errno = ENOMEM` without touching the
allocator, or request exactly `bytes` bytes from `malloc`. -/
inductive AllocOutcome where
  | nullNoAlloc : AllocOutcome
  | nullENOMEM : AllocOutcome
  | callMalloc (bytes : Nat) : AllocOutcome
  deriving DecidableEq, Repr

/-- Embedding of `imalloc(nrec, reclen)` from `lib/util/imalloc.h`:
`if (nrec == 0) return NULL; if (nrec > SIZE_MAX / reclen) { errno = ENOMEM; return NULL; } else return malloc(nrec * reclen);`.
The caller must ensure `reclen != 0` (asserted in the source). -/
def imalloc (nrec reclen : Nat) : AllocOutcome :=
  if nrec = 0 then .nullNoAlloc
  else if SIZE_MAX / reclen < nrec then .nullENOMEM
  else .callMalloc (nrec * reclen)

/-! Helper lemmas about state preservation, shared by several claims. -/

theorem tcsetattr_nostop_tc_saved (env : NostopEnv) (fd : Int) (t : Termios)
    (w : World) : (tcsetattr_nostop env fd t w).2.1.tc_saved = w.tc_saved := by
  obtain ⟨s1, tr, s2⟩ := env
  cases s1 <;> cases s2 <;> cases tr <;> simp [tcsetattr_nostop]

theorem tcsetattr_nostop_received (env : NostopEnv) (fd : Int) (t : Termios)
    (w : World) :
    (tcsetattr_nostop env fd t w).2.1.sigquit_received = w.sigquit_received := by
  obtain ⟨s1, tr, s2⟩ := env
  cases s1 <;> cases s2 <;> cases tr <;> simp [tcsetattr_nostop]

theorem tcsetattr_nostop_hooks (env : NostopEnv) (fd : Int) (t : Termios)
    (w : World) : (tcsetattr_nostop env fd t w).2.1.exitHooks = w.exitHooks := by
  obtain ⟨s1, tr, s2⟩ := env
  cases s1 <;> cases s2 <;> cases tr <;> simp [tcsetattr_nostop]

theorem termios_restore_tc_saved (env : NostopEnv) (w : World) :
    (termios_restore env w).1.tc_saved = w.tc_saved := by
  simp [termios_restore, tcsetattr_nostop_tc_saved]

theorem termios_restore_received (env : NostopEnv) (w : World) :
    (termios_restore env w).1.sigquit_received = w.sigquit_received := by
  simp [termios_restore, tcsetattr_nostop_received]

theorem runHookList_tc_saved (env : NostopEnv) (hs : List ExitHook) (w : World) :
    (runHookList env hs w).1.tc_saved = w.tc_saved := by
  induction hs generalizing w with
  | nil => rfl
  | cons h hs ih =>
    cases h
    simp [runHookList, ih, termios_restore_tc_saved]

theorem runHookList_received (env : NostopEnv) (hs : List ExitHook) (w : World) :
    (runHookList env hs w).1.sigquit_received = w.sigquit_received := by
  induction hs generalizing w with
  | nil => rfl
  | cons h hs ih =>
    cases h
    simp [runHookList, ih, termios_restore_received]

/-! Claim theorems. -/

/-- C1: the adjusted attribute set built by `sigquit_init` maps `VQUIT`
to the ^Q byte, disables every other control-character entry whose
snapshot value was the ^Q byte, and leaves every other control-character
entry and every non-control-character field unchanged. -/
theorem tc_adjust_spec (tc : Termios) :
    (tc_adjust tc).c_cc VQUIT = ctrlQ ∧
    (∀ i : Fin NCCS, i ≠ VQUIT → tc.c_cc i = ctrlQ →
      (tc_adjust tc).c_cc i = POSIX_VDISABLE) ∧
    (∀ i : Fin NCCS, i ≠ VQUIT → tc.c_cc i ≠ ctrlQ →
      (tc_adjust tc).c_cc i = tc.c_cc i) ∧
    (tc_adjust tc).c_iflag = tc.c_iflag ∧
    (tc_adjust tc).c_oflag = tc.c_oflag ∧
    (tc_adjust tc).c_cflag = tc.c_cflag ∧
    (tc_adjust tc).c_lflag = tc.c_lflag ∧
    (tc_adjust tc).c_ispeed = tc.c_ispeed ∧
    (tc_adjust tc).c_ospeed = tc.c_ospeed := by
  refine ⟨?_, ?_, ?_, rfl, rfl, rfl, rfl, rfl, rfl⟩
  · simp [tc_adjust]
  · intro i hi hq
    simp [tc_adjust, Function.update_noteq hi, cc_clear_ctrlQ, hq]
  · intro i hi hq
    simp [tc_adjust, Function.update_noteq hi, cc_clear_ctrlQ, hq]

/-- Witness for C1 at a concrete snapshot: entry 5 held ^Q and is
disabled, entry 3 held 3 and is unchanged, `VQUIT` is bound to ^Q. -/
theorem tc_adjust_spec_witness :
    (tc_adjust tcSample).c_cc VQUIT = ctrlQ ∧
    (tc_adjust tcSample).c_cc ⟨5, by decide⟩ = POSIX_VDISABLE ∧
    (tc_adjust tcSample).c_cc ⟨3, by decide⟩ = tcSample.c_cc ⟨3, by decide⟩ := by
  obtain ⟨h1, h2, h3, _⟩ := tc_adjust_spec tcSample
  exact ⟨h1, h2 ⟨5, by decide⟩ (by decide) (by decide),
    h3 ⟨3, by decide⟩ (by decide) (by decide)⟩

/-- C7: with a nonzero record length, `imalloc` returns NULL without
allocating when the record count is zero; it fails with `ENOMEM` exactly
when `nrec > SIZE_MAX / reclen`, which holds exactly when the mathematical
product `nrec * reclen` exceeds `SIZE_MAX`; and otherwise it requests
exactly `nrec * reclen` bytes from the allocator. -/
theorem imalloc_spec (nrec reclen : Nat) (hr : reclen ≠ 0) :
    (nrec = 0 → imalloc nrec reclen = .nullNoAlloc) ∧
    (imalloc nrec reclen = .nullENOMEM ↔ SIZE_MAX / reclen < nrec) ∧
    (SIZE_MAX / reclen < nrec ↔ SIZE_MAX < nrec * reclen) ∧
    (nrec ≠ 0 → ¬ SIZE_MAX / reclen < nrec →
      imalloc nrec reclen = .callMalloc (nrec * reclen)) := by
  have hpos : 0 < reclen := Nat.pos_of_ne_zero hr
  have key : SIZE_MAX / reclen < nrec ↔ SIZE_MAX < nrec * reclen :=
    Nat.div_lt_iff_lt_mul hpos
  refine ⟨fun h => by simp [imalloc, h], ?_, key, fun h0 hov => by
    simp [imalloc, h0, hov]⟩
  by_cases h0 : nrec = 0
  · subst h0
    simp [imalloc]
  · by_cases hov : SIZE_MAX / reclen < nrec
    · simp [imalloc, h0, hov]
    · simp [imalloc, h0, hov]

/-- Witness for C7: zero records return NULL without allocating, an
overflowing combination fails with `ENOMEM`, and 3 records of 8 bytes
request exactly 24 bytes. -/
theorem imalloc_spec_witness :
    imalloc 0 8 = .nullNoAlloc ∧
    imalloc (2 ^ 63) 4 = .nullENOMEM ∧
    imalloc 3 8 = .callMalloc (3 * 8) := by
  obtain ⟨hz, _, _, _⟩ := imalloc_spec 0 8 (by decide)
  obtain ⟨_, ho, _, _⟩ := imalloc_spec (2 ^ 63) 4 (by decide)
  obtain ⟨_, _, _, ha⟩ := imalloc_spec 3 8 (by decide)
  exact ⟨hz rfl, ho.mpr (by decide), ha (by decide) (by decide)⟩

theorem sigquit_init_rc (env : InitEnv) (w : World) :
    (sigquit_init env w).1 = if initFails env then -1 else 0 := by
  obtain ⟨sa, tty, tg, ae, ⟨s1, tr, s2⟩⟩ := env
  cases sa
  · simp [sigquit_init, initFails]
  · cases tty
    · simp [sigquit_init, initFails]
    · cases tg
      · cases ae
        · simp [sigquit_init, initFails, nostopFails]
        · cases s1
          · simp [sigquit_init, initFails, nostopFails, tcsetattr_nostop]
          · cases s2 <;> cases tr <;>
              simp [sigquit_init, initFails, nostopFails, tcsetattr_nostop]
      · rename_i e
        cases hb : benign e <;> simp [sigquit_init, initFails, hb]

/-- C2 (amended): `sigquit_init` returns failure exactly when `sigaction`
fails, or `tcgetattr` on a resolved terminal fails with an error outside
the benign set, or `atexit` fails, or the `tcsetattr_nostop` call fails
for any reason (including a benign `tcsetattr` errno or a failed `signal`
call inside the wrapper); in every other case it returns success. -/
theorem sigquit_init_failure_characterization (env : InitEnv) (w : World) :
    ((sigquit_init env w).1 = -1 ↔ initFails env = true) ∧
    ((sigquit_init env w).1 = 0 ↔ initFails env = false) := by
  rw [sigquit_init_rc]
  cases h : initFails env <;> simp

/-- Counterexample to C2 as stated: in `envC2` every call succeeds except
the inner `tcsetattr`, which fails with the benign code `ENOTTY`; the
claim places this case among the successes, but `sigquit_init` returns
failure. -/
theorem sigquit_init_c2_counterexample :
    (sigquit_init envC2 w0).1 = -1 ∧ initFailsClaimC2 envC2 = false :=
  ⟨rfl, rfl⟩

/-- C3 (amended): whenever both `signal` calls inside `tcsetattr_nostop`
succeed, the prior SIGTTOU disposition is restored before the function
returns, even when `tcsetattr` itself fails, and the return value reports
the outcome of the `tcsetattr` call.  If the restoring `signal` call
fails, the disposition stays ignored and -1 is returned regardless of the
`tcsetattr` outcome. -/
theorem tcsetattr_nostop_restores (env : NostopEnv) (fd : Int) (t : Termios)
    (w : World) (h1 : env.sig1_ok = true) (h2 : env.sig2_ok = true) :
    (tcsetattr_nostop env fd t w).2.1.ttou = w.ttou ∧
    (tcsetattr_nostop env fd t w).1 = (if env.tcsRes.isSome then -1 else 0) := by
  obtain ⟨s1, tr, s2⟩ := env
  cases s1
  · simp at h1
  · cases s2
    · simp at h2
    · cases tr <;> simp [tcsetattr_nostop]

/-- Witness for C3 (amended) at a concrete call where `tcsetattr` fails
with `EIO`: the disposition is restored and -1 is returned. -/
theorem tcsetattr_nostop_restores_witness :
    (tcsetattr_nostop ⟨true, some .eio, true⟩ 3 tc0 w0).2.1.ttou = w0.ttou ∧
    (tcsetattr_nostop ⟨true, some .eio, true⟩ 3 tc0 w0).1 = -1 := by
  have h := tcsetattr_nostop_restores ⟨true, some .eio, true⟩ 3 tc0 w0 rfl rfl
  exact ⟨h.1, by simpa using h.2⟩

/-- Counterexample to C3 as stated: in `envC3` the initial disposition
change succeeds and `tcsetattr` succeeds, but the restoring `signal` call
fails; the disposition observed after the call is ignore rather than the
prior default, and the return value is -1 although `tcsetattr`
succeeded. -/
theorem tcsetattr_nostop_c3_counterexample :
    envC3.sig1_ok = true ∧ envC3.tcsRes = none ∧ w0.ttou = Disposition.dfl ∧
    (tcsetattr_nostop envC3 3 tc0 w0).2.1.ttou = Disposition.ign ∧
    (tcsetattr_nostop envC3 3 tc0 w0).1 = -1 :=
  ⟨rfl, rfl, rfl, rfl, rfl⟩

theorem tcsetattr_nostop_fd (env : NostopEnv) (fd : Int) (t : Termios)
    (w : World) : (tcsetattr_nostop env fd t w).2.1.fd_terminal = w.fd_terminal := by
  obtain ⟨s1, tr, s2⟩ := env
  cases s1 <;> cases s2 <;> cases tr <;> simp [tcsetattr_nostop]

theorem termios_restore_fd (env : NostopEnv) (w : World) :
    (termios_restore env w).1.fd_terminal = w.fd_terminal := by
  simp [termios_restore, tcsetattr_nostop_fd]

theorem tcsetattr_nostop_tcset_mem (env : NostopEnv) (fd : Int) (t : Termios)
    (w : World) (f : Int) (t' : Termios) (r : Option Errno)
    (h : Event.tcsetattrEv f t' r ∈ (tcsetattr_nostop env fd t w).2.2) :
    t' = t ∧ f = fd := by
  obtain ⟨s1, tr, s2⟩ := env
  cases s1 <;> cases s2 <;> cases tr <;> simp [tcsetattr_nostop] at h <;>
    exact ⟨h.2.1, h.1⟩

theorem runHookList_tcset_mem (env : NostopEnv) (hs : List ExitHook) (w : World)
    (f : Int) (t : Termios) (r : Option Errno)
    (h : Event.tcsetattrEv f t r ∈ (runHookList env hs w).2) :
    t = w.tc_saved ∧ f = w.fd_terminal := by
  induction hs generalizing w with
  | nil => simp [runHookList] at h
  | cons hk hs ih =>
    cases hk
    simp only [runHookList, List.mem_append] at h
    rcases h with h | h
    · simp only [termios_restore, List.mem_append, List.mem_singleton] at h
      rcases h with h | h
      · exact tcsetattr_nostop_tcset_mem env w.fd_terminal w.tc_saved w f t r h
      · cases h
    · have := ih _ h
      rw [termios_restore_tc_saved, termios_restore_fd] at this
      exact this

/-- C4: the snapshot in `tc_saved` after `sigquit_init` captures a
terminal is exactly the live attributes at capture time; it is never
modified afterwards, and every attribute set performed by the exit-time
restore applies exactly that snapshot (the ^Q adjustment is performed
only on the separate copy `tc_new`). -/
theorem sigquit_init_restores_snapshot (env : InitEnv) (renv : NostopEnv)
    (w : World) (fd : Nat) (hsa : env.sigaction_ok = true)
    (htty : env.tty = some fd) (htc : env.tcget = none) :
    (sigquit_init env w).2.1.tc_saved = w.term ∧
    (runProcess env renv w).2.1.tc_saved = w.term ∧
    (∀ f t r, Event.tcsetattrEv f t r ∈ (runProcess env renv w).2.2.2 →
      t = w.term) := by
  have hinit : (sigquit_init env w).2.1.tc_saved = w.term := by
    obtain ⟨sa, tty, tg, ae, ⟨s1, tr, s2⟩⟩ := env
    cases hsa; cases htty; cases htc
    cases ae <;> cases s1 <;> cases s2 <;> cases tr <;>
      simp [sigquit_init, tcsetattr_nostop]
  refine ⟨hinit, ?_, ?_⟩
  · show (runExitHooks renv (sigquit_init env w).2.1).1.tc_saved = w.term
    rw [runExitHooks, runHookList_tc_saved, hinit]
  · intro f t r h
    have := runHookList_tcset_mem renv _ _ f t r h
    rw [hinit] at this
    exact this.1

/-- Witness for C4 at the all-success environment on descriptor 3. -/
theorem sigquit_init_restores_snapshot_witness :
    (sigquit_init envOk w0).2.1.tc_saved = w0.term ∧
    (runProcess envOk renv0 w0).2.1.tc_saved = w0.term := by
  have h := sigquit_init_restores_snapshot envOk renv0 w0 3 rfl rfl rfl
  exact ⟨h.1, h.2.1⟩

/-- C5: in every execution of `sigquit_init`, no `tcsetattr` call occurs
before the successful `atexit` registration, and whenever the `atexit`
registration fails, `sigquit_init` returns failure with the live terminal
attributes exactly as they were before the call and no `tcsetattr` call
anywhere in the execution. -/
theorem sigquit_init_reg_before_mut (env : InitEnv) (w : World) :
    regBeforeMut (sigquit_init env w).2.2 = true ∧
    ((sigquit_init env w).2.2.any isAtexitFail = true →
      (sigquit_init env w).1 = -1 ∧
      (sigquit_init env w).2.1.term = w.term ∧
      (sigquit_init env w).2.2.any isTcset = false) := by
  obtain ⟨sa, tty, tg, ae, ⟨s1, tr, s2⟩⟩ := env
  cases sa <;> cases tty <;> cases tg <;> cases ae <;> cases s1 <;>
    cases s2 <;> cases tr <;>
    simp [sigquit_init, tcsetattr_nostop, regBeforeMut, isAtexitFail, isTcset]

/-- Witness for C5 at the environment where `atexit` fails: failure is
returned, the live attributes are untouched and no `tcsetattr` call was
made. -/
theorem sigquit_init_reg_before_mut_witness :
    regBeforeMut (sigquit_init envC5 w0).2.2 = true ∧
    (sigquit_init envC5 w0).1 = -1 ∧
    (sigquit_init envC5 w0).2.1.term = w0.term ∧
    (sigquit_init envC5 w0).2.2.any isTcset = false := by
  have h := sigquit_init_reg_before_mut envC5 w0
  exact ⟨h.1, h.2 rfl⟩

/-- C6: in every execution in which `ttyfd` reports that no controlling
terminal exists, `sigquit_init` returns success, the flag
`sigquit_received` is zero, the SIGQUIT handler is installed, and no
`tcgetattr`, `tcsetattr` or `atexit` call is made. -/
theorem sigquit_init_no_terminal (env : InitEnv) (w : World)
    (h : (sigquit_init env w).2.2.any isTtyfdNone = true) :
    (sigquit_init env w).1 = 0 ∧
    (sigquit_init env w).2.1.sigquit_received = 0 ∧
    (sigquit_init env w).2.1.quitHandler = true ∧
    (sigquit_init env w).2.2.any isTcget = false ∧
    (sigquit_init env w).2.2.any isTcset = false ∧
    (sigquit_init env w).2.2.any isAtexit = false := by
  obtain ⟨sa, tty, tg, ae, ⟨s1, tr, s2⟩⟩ := env
  cases sa <;> cases tty <;> cases tg <;> cases ae <;> cases s1 <;>
    cases s2 <;> cases tr <;>
    simp_all [sigquit_init, tcsetattr_nostop, isTtyfdNone, isTcget, isTcset,
      isAtexit]

/-- Witness for C6 at the no-terminal environment. -/
theorem sigquit_init_no_terminal_witness :
    (sigquit_init envNoTty w0).1 = 0 ∧
    (sigquit_init envNoTty w0).2.1.sigquit_received = 0 ∧
    (sigquit_init envNoTty w0).2.1.quitHandler = true ∧
    (sigquit_init envNoTty w0).2.2.any isTcget = false ∧
    (sigquit_init envNoTty w0).2.2.any isTcset = false ∧
    (sigquit_init envNoTty w0).2.2.any isAtexit = false :=
  sigquit_init_no_terminal envNoTty w0 rfl

theorem tcsetattr_nostop_no_close (env : NostopEnv) (fd : Int) (t : Termios)
    (w : World) : (tcsetattr_nostop env fd t w).2.2.countP isClose = 0 := by
  obtain ⟨s1, tr, s2⟩ := env
  cases s1 <;> cases s2 <;> cases tr <;>
    simp [tcsetattr_nostop, isClose, List.countP_cons, List.countP_nil]

/-- C8 (amended): in every execution in which `sigquit_init` opens a
terminal descriptor and both the attribute snapshot and the `atexit`
registration succeed, the descriptor is closed exactly once during the
process lifetime, by the exit-time restore step; no close happens during
initialization.  When the snapshot fails (even benignly) or registration
fails, the subsystem never closes the descriptor
(`runProcess_c8_counterexample`). -/
theorem runProcess_close_once (env : InitEnv) (renv : NostopEnv) (w : World)
    (fd : Nat) (hw : w.exitHooks = []) (hsa : env.sigaction_ok = true)
    (htty : env.tty = some fd) (htc : env.tcget = none)
    (hae : env.atexit_ok = true) :
    (runProcess env renv w).2.2.1.countP isClose = 0 ∧
    (runProcess env renv w).2.2.2.countP isClose = 1 := by
  obtain ⟨sa, tty, tg, ae, ⟨s1, tr, s2⟩⟩ := env
  cases hsa; cases htty; cases htc; cases hae
  obtain ⟨r1, rtr, r2⟩ := renv
  cases s1 <;> cases s2 <;> cases tr <;> cases r1 <;> cases r2 <;> cases rtr <;>
    simp [runProcess, sigquit_init, runExitHooks, runHookList, termios_restore,
      tcsetattr_nostop, isClose, hw, List.countP_cons, List.countP_nil,
      List.countP_append]

/-- Witness for C8 (amended) at the all-success environment. -/
theorem runProcess_close_once_witness :
    (runProcess envOk renv0 w0).2.2.1.countP isClose = 0 ∧
    (runProcess envOk renv0 w0).2.2.2.countP isClose = 1 :=
  runProcess_close_once envOk renv0 w0 3 rfl rfl rfl rfl rfl

/-- Counterexample to C8 as stated: in `envC8` the descriptor is opened
(`ttyfd` returns 3) and `sigquit_init` succeeds, but `tcgetattr` fails
with the benign code `ENOTTY`, so no restore action is registered and the
subsystem closes the descriptor zero times, not exactly once. -/
theorem runProcess_c8_counterexample :
    envC8.tty = some 3 ∧ (sigquit_init envC8 w0).1 = 0 ∧
    (runProcess envC8 renv0 w0).2.2.1.countP isClose = 0 ∧
    (runProcess envC8 renv0 w0).2.2.2.countP isClose = 0 :=
  ⟨rfl, rfl, rfl, rfl⟩

/-- C9: after initialization, the signal handler's write of 1 is the only
write of `sigquit_received` performed by the subsystem — the handler does
nothing but that write, a host poll changes nothing, and the exit hooks
preserve the flag — so once the flag holds 1, it holds 1 after every
sequence of post-initialization steps. -/
theorem sigquit_received_sticky :
    (∀ w, sigquit_handler w = { w with sigquit_received := 1 }) ∧
    (∀ s w, (hostStep s w).sigquit_received = w.sigquit_received ∨
      hostStep s w = sigquit_handler w) ∧
    (∀ l w, w.sigquit_received = 1 → (hostRun l w).sigquit_received = 1) := by
  refine ⟨fun w => rfl, ?_, ?_⟩
  · intro s w
    cases s with
    | deliverQuit => exact Or.inr rfl
    | pollFlag => exact Or.inl rfl
    | processExit renv =>
      exact Or.inl (by simp [hostStep, runExitHooks, runHookList_received])
  · intro l
    induction l with
    | nil => exact fun w h => h
    | cons s l ih =>
      intro w h
      apply ih
      cases s with
      | deliverQuit => rfl
      | pollFlag => exact h
      | processExit renv =>
        simpa [hostStep, runExitHooks, runHookList_received] using h

/-- Witness for C9: after the handler fires, the flag still reads 1 after
a poll, a second delivery and the exit hooks. -/
theorem sigquit_received_sticky_witness :
    (hostRun [HostStep.pollFlag, HostStep.deliverQuit, HostStep.processExit renv0]
      (sigquit_handler w0)).sigquit_received = 1 :=
  sigquit_received_sticky.2.2 _ (sigquit_handler w0) rfl

/-- C10: when `sigquit_init` registers the restore action and the
subsequent live attribute set fails, initialization reports failure but
the restore action stays registered: at process exit the restore still
runs, re-applies the captured snapshot as the live attributes, and closes
the terminal descriptor. -/
theorem runProcess_restore_after_failed_set (env : InitEnv) (renv : NostopEnv)
    (w : World) (fd : Nat) (hw : w.exitHooks = [])
    (hsa : env.sigaction_ok = true) (htty : env.tty = some fd)
    (htc : env.tcget = none) (hae : env.atexit_ok = true)
    (hfail : nostopFails env.tcset = true)
    (hr1 : renv.sig1_ok = true) (hrt : renv.tcsRes = none) :
    (sigquit_init env w).1 = -1 ∧
    (sigquit_init env w).2.1.exitHooks = [ExitHook.termiosRestoreHook] ∧
    (runProcess env renv w).2.1.term = w.term ∧
    (runProcess env renv w).2.2.2.countP isTcset = 1 ∧
    (runProcess env renv w).2.2.2.countP isClose = 1 := by
  obtain ⟨sa, tty, tg, ae, ⟨s1, tr, s2⟩⟩ := env
  cases hsa; cases htty; cases htc; cases hae
  obtain ⟨r1, rtr, r2⟩ := renv
  cases hr1; cases hrt
  cases s1 <;> cases s2 <;> cases tr <;> cases r2 <;>
    first
      | (simp [runProcess, sigquit_init, runExitHooks, runHookList,
          termios_restore, tcsetattr_nostop, isTcset, isClose, hw,
          List.countP_cons, List.countP_nil, List.countP_append]; done)
      | simp [nostopFails] at hfail

/-- Witness for C10: with everything succeeding except the inner
`tcsetattr` (which fails with `EIO`), initialization fails, the hook is
registered and the exit phase restores and closes. -/
theorem runProcess_restore_after_failed_set_witness :
    (sigquit_init envC10 w0).1 = -1 ∧
    (sigquit_init envC10 w0).2.1.exitHooks = [ExitHook.termiosRestoreHook] ∧
    (runProcess envC10 renv0 w0).2.1.term = w0.term ∧
    (runProcess envC10 renv0 w0).2.2.2.countP isTcset = 1 ∧
    (runProcess envC10 renv0 w0).2.2.2.countP isClose = 1 :=
  runProcess_restore_after_failed_set envC10 renv0 w0 3 rfl rfl rfl rfl rfl rfl
    rfl rfl

end Sigquit
